import Mathlib

/-!
Shallow embedding of the ETF income planner core (`app.py`): static reference
tables, the federal bracket resolver `get_federal_tax_rate`, the distribution
schedule generator `generate_distribution_schedule`, and the income simulator
`simulate_income_planner`.  Python floats are modelled as rationals, Python
dicts as association lists in insertion order, raised `KeyError`s as
`Except.error`, and `datetime`/`relativedelta`/`calendar.monthrange` date
arithmetic as explicit Gregorian calendar functions.
-/

/-- A calendar date, as `datetime` year/month/day. -/
structure Date where
  year : ℕ
  month : ℕ
  day : ℕ
  deriving DecidableEq, Repr

/-- Gregorian leap-year test, as `calendar.isleap`. -/
def isLeap (y : ℕ) : Bool :=
  y % 4 == 0 && (y % 100 != 0 || y % 400 == 0)

/-- Number of days in a month, as `calendar.monthrange(y, m)[1]`. -/
def daysInMonth (y m : ℕ) : ℕ :=
  if m = 2 then (if isLeap y then 29 else 28)
  else if m = 4 ∨ m = 6 ∨ m = 9 ∨ m = 11 then 30
  else 31

/-- Date plus `k` months, as `date + relativedelta(months=k)`: the month index
advances by `k` and the day is clamped to the length of the target month. -/
def addMonths (d : Date) (k : ℕ) : Date :=
  let mi := d.month - 1 + k
  let y := d.year + mi / 12
  let m := mi % 12 + 1
  { year := y, month := m, day := min d.day (daysInMonth y m) }

/-- Absolute month index of a date (year times 12 plus zero-based month). -/
def monthIndex (d : Date) : ℕ :=
  d.year * 12 + (d.month - 1)

/-- Chronological comparison of dates (lexicographic on year, month, day). -/
def dateLE (a b : Date) : Bool :=
  decide (a.year < b.year) ||
    (decide (a.year = b.year) &&
      (decide (a.month < b.month) ||
        (decide (a.month = b.month) && decide (a.day ≤ b.day))))

/-- Split a character list on the dash separator. -/
def splitDash : List Char → List (List Char)
  | [] => [[]]
  | c :: rest =>
    match splitDash rest with
    | [] => [[c]]
    | g :: gs => if c = '-' then [] :: g :: gs else (c :: g) :: gs

/-- Read a non-empty all-digit character group as a number. -/
def digitsAux : List Char → ℕ → Option ℕ
  | [], acc => some acc
  | c :: rest, acc =>
    if c.isDigit then digitsAux rest (acc * 10 + (c.toNat - 48)) else none

/-- Read a non-empty all-digit character group as a number. -/
def digitsToNat (cs : List Char) : Option ℕ :=
  if cs.isEmpty then none else digitsAux cs 0

/-- Parse an ISO `YYYY-MM-DD` string, as
`datetime.strptime(s, "%Y-%m-%d")` on the well-formed inputs used here. -/
def parseDate (s : String) : Option Date :=
  match splitDash s.toList with
  | [ys, ms, ds] =>
    match digitsToNat ys, digitsToNat ms, digitsToNat ds with
    | some y, some m, some d => some { year := y, month := m, day := d }
    | _, _, _ => none
  | _ => none

/-- Static ETF yield table `etf_yields` from `app.py`. -/
def etfYieldsTable : List (String × ℚ) :=
  [("JEPI", 0.0838), ("SPYD", 0.045), ("SCHD", 0.035), ("VYM", 0.032),
   ("QYLD", 0.115), ("RYLD", 0.12), ("BND", 0.04), ("PFF", 0.065)]

/-- Dict access `etf_yields[etf]`, `none` modelling a raised `KeyError`. -/
def etf_yields (etf : String) : Option ℚ :=
  etfYieldsTable.lookup etf

/-- One entry of `etf_distribution_schedules`: distribution frequency and the
next pay date, kept as the string it is stored as in `app.py`. -/
structure Sched where
  frequency : String
  next_pay_date : String
  deriving DecidableEq, Repr

/-- Static schedule table `etf_distribution_schedules` from `app.py`. -/
def etfSchedulesTable : List (String × Sched) :=
  [("JEPI", ⟨"monthly", "2024-06-30"⟩), ("SPYD", ⟨"quarterly", "2024-06-30"⟩),
   ("SCHD", ⟨"quarterly", "2024-06-30"⟩), ("VYM", ⟨"quarterly", "2024-06-30"⟩),
   ("QYLD", ⟨"monthly", "2024-06-30"⟩), ("RYLD", ⟨"monthly", "2024-06-30"⟩),
   ("BND", ⟨"monthly", "2024-06-30"⟩), ("PFF", ⟨"monthly", "2024-06-30"⟩)]

/-- Dict access `etf_distribution_schedules[etf]`. -/
def etf_distribution_schedules (etf : String) : Option Sched :=
  etfSchedulesTable.lookup etf

/-- Static state tax table `state_tax_rates` from `app.py`. -/
def stateTaxTable : List (String × ℚ) :=
  [("Massachusetts", 0.05), ("California", 0.093), ("New York", 0.064),
   ("Texas", 0.0), ("Florida", 0.0), ("Illinois", 0.0495), ("Washington", 0.0),
   ("New Jersey", 0.0637), ("Pennsylvania", 0.0307), ("Ohio", 0.0399)]

/-- Dict lookup on `state_tax_rates` (used via `.get(state, 0.05)`). -/
def state_tax_rates (state : String) : Option ℚ :=
  stateTaxTable.lookup state

/-- The tickers present in the static reference tables. -/
def knownEtfs : List String :=
  ["JEPI", "SPYD", "SCHD", "VYM", "QYLD", "RYLD", "BND", "PFF"]

/-- The federal bracket table from `get_federal_tax_rate`. -/
def brackets : List (ℚ × ℚ) :=
  [(11600, 0.10), (47150, 0.12), (100525, 0.22),
   (191950, 0.24), (243725, 0.32), (609350, 0.35)]

/-- Federal bracket resolver `get_federal_tax_rate`: the rate of the first
bracket whose limit is at least the income, `0.37` above the last limit. -/
def get_federal_tax_rate (income : ℚ) : ℚ :=
  ((brackets.find? (fun p => decide (income ≤ p.1))).map Prod.snd).getD 0.37

/-- Round a rational to the nearest integer, ties to even, as Python's
built-in banker's rounding. -/
def roundHalfEven (q : ℚ) : ℤ :=
  if q * 2 < 2 * (⌊q⌋ : ℚ) + 1 then ⌊q⌋
  else if 2 * (⌊q⌋ : ℚ) + 1 < q * 2 then ⌊q⌋ + 1
  else if ⌊q⌋ % 2 = 0 then ⌊q⌋ else ⌊q⌋ + 1

/-- Python `round(q, 2)`: round to two decimal places, ties to even. -/
def pyRound2 (q : ℚ) : ℚ :=
  (roundHalfEven (q * 100) : ℚ) / 100

/-- Python `int(q)`: truncation toward zero. -/
def pyInt (q : ℚ) : ℤ :=
  if q < 0 then -⌊-q⌋ else ⌊q⌋

/-- A row of the schedule DataFrame: ETF ticker, pay date, and the estimated
distribution amount in dollars. -/
structure Row where
  etf : String
  payDate : Date
  dist : ℚ
  deriving DecidableEq, Repr

/-- The rows appended for one ETF by the loop body of
`generate_distribution_schedule`: `periods` payments of `amount / periods`,
dated `next_date + relativedelta(months=step*i)` and then normalized to the
last calendar day of that month. -/
def etfRows (investment weight rate : ℚ) (etf : String) (freq : String)
    (next_date : Date) : List Row :=
  let amount := investment * weight * rate
  let periods : ℕ := if freq = "monthly" then 12 else 4
  let step : ℕ := if freq = "monthly" then 1 else 3
  let dist := amount / (periods : ℚ)
  (List.range periods).map (fun i =>
    let date := addMonths next_date (step * i)
    let final_date : Date :=
      { year := date.year, month := date.month,
        day := daysInMonth date.year date.month }
    { etf := etf, payDate := final_date, dist := pyRound2 dist })

/-- The row-building loop of `generate_distribution_schedule` over the weight
dict in insertion order; a missing table entry raises `KeyError`. -/
def genRows (investment : ℚ) : List (String × ℚ) → Except String (List Row)
  | [] => .ok []
  | (etf, weight) :: rest =>
    match etf_yields etf with
    | none => .error ("KeyError: " ++ etf)
    | some rate =>
      match etf_distribution_schedules etf with
      | none => .error ("KeyError: " ++ etf)
      | some sched =>
        match parseDate sched.next_pay_date with
        | none => .error "ValueError: unparseable next_pay_date"
        | some next_date =>
          match genRows investment rest with
          | .error e => .error e
          | .ok rs =>
            .ok (etfRows investment weight rate etf sched.frequency next_date
                  ++ rs)

/-- The final `pd.DataFrame(rows).sort_values('Pay Date')` on the collected
rows: a sort ascending by pay date.  Only the ascending date order and the
row multiset are taken from the source; `sort_values` defaults to pandas'
quicksort, which fixes no particular relative order for rows that share a
pay date, so the tie order of this model's `mergeSort` is an artifact of the
model and is nowhere relied upon. -/
def sortRows (rows : List Row) : List Row :=
  rows.mergeSort (fun a b => dateLE a.payDate b.payDate)

/-- `generate_distribution_schedule(investment, etf_weights)`: empty weights
give an empty DataFrame, otherwise the per-ETF rows sorted by pay date. -/
def generate_distribution_schedule (investment : ℚ)
    (etf_weights : List (String × ℚ)) : Except String (List Row) :=
  if etf_weights.isEmpty then .ok []
  else
    match genRows investment etf_weights with
    | .error e => .error e
    | .ok rows => .ok (sortRows rows)

/-- The sum `sum(etf_yields[etf] * w for etf, w in etf_weights.items())`,
with a missing ticker raising `KeyError`. -/
def yieldSum : List (String × ℚ) → Except String ℚ
  | [] => .ok 0
  | (etf, w) :: rest =>
    match etf_yields etf with
    | none => .error ("KeyError: " ++ etf)
    | some y =>
      match yieldSum rest with
      | .error e => .error e
      | .ok s => .ok (y * w + s)

/-- A value of the summary dict: a number or a formatted percent string. -/
inductive Val where
  | num (q : ℚ)
  | str (s : String)
  deriving DecidableEq, Repr

/-- `simulate_income_planner(investment, etf_weights, state, income)`: the
summary dict as an association list in insertion order; `{}` for empty
weights. -/
def simulate_income_planner (investment : ℚ) (etf_weights : List (String × ℚ))
    (state : String) (income : ℚ) : Except String (List (String × Val)) :=
  if etf_weights.isEmpty then .ok []
  else
    match yieldSum etf_weights with
    | .error e => .error e
    | .ok yield_avg =>
      let annual := investment * yield_avg
      let monthly := annual / 12
      let fed_tax := get_federal_tax_rate income
      let state_tax := (state_tax_rates state).getD 0.05
      let total_tax := annual * (fed_tax + state_tax)
      let net_annual := annual - total_tax
      .ok [("Average Yield (%)", .num (pyRound2 (yield_avg * 100))),
           ("Gross Monthly Income ($)", .num (pyRound2 monthly)),
           ("Gross Yearly Income ($)", .num (pyRound2 annual)),
           ("Federal Tax Rate", .str (toString (pyInt (fed_tax * 100)) ++ "%")),
           ("State Tax Rate", .str (toString (pyInt (state_tax * 100)) ++ "%")),
           ("Net Monthly Income ($)", .num (pyRound2 (net_annual / 12))),
           ("Net Yearly Income ($)", .num (pyRound2 net_annual))]

/-- The yield rate of a known ETF (the table lookup, totalized). -/
def yieldOf (etf : String) : ℚ :=
  (etf_yields etf).getD 0

/-- The schedule entry of a known ETF (the table lookup, totalized). -/
def schedOf (etf : String) : Sched :=
  (etf_distribution_schedules etf).getD ⟨"", ""⟩

/-- The parsed next-pay anchor date of a known ETF. -/
def anchorOf (etf : String) : Date :=
  (parseDate (schedOf etf).next_pay_date).getD ⟨0, 0, 0⟩

/-- The rows one weight-map entry contributes to the schedule. -/
def rowsFor (investment : ℚ) (p : String × ℚ) : List Row :=
  etfRows investment p.2 (yieldOf p.1) p.1 (schedOf p.1).frequency (anchorOf p.1)

/-- All loop rows of `generate_distribution_schedule`, in dict order. -/
def allRows (investment : ℚ) (etf_weights : List (String × ℚ)) : List Row :=
  etf_weights.flatMap (rowsFor investment)

lemma known_eval {e : String} (he : e ∈ knownEtfs) :
    etf_yields e = some (yieldOf e) ∧
      etf_distribution_schedules e = some (schedOf e) ∧
      parseDate (schedOf e).next_pay_date = some (anchorOf e) := by
  simp only [knownEtfs, List.mem_cons, List.not_mem_nil, or_false] at he
  rcases he with rfl | rfl | rfl | rfl | rfl | rfl | rfl | rfl <;>
    exact ⟨rfl, rfl, rfl⟩

lemma genRows_known {w : List (String × ℚ)} (investment : ℚ)
    (hk : ∀ p ∈ w, p.1 ∈ knownEtfs) :
    genRows investment w = .ok (allRows investment w) := by
  induction w with
  | nil => rfl
  | cons p rest ih =>
    obtain ⟨e, wt⟩ := p
    obtain ⟨h1, h2, h3⟩ := known_eval (hk (e, wt) (List.mem_cons_self _ _))
    have ih' := ih (fun q hq => hk q (List.mem_cons_of_mem _ hq))
    simp only [genRows, h1, h2, h3, ih', allRows, List.flatMap_cons, rowsFor]

lemma etf_of_mem_etfRows {r : Row} {investment weight rate : ℚ} {e f : String}
    {d : Date} (hr : r ∈ etfRows investment weight rate e f d) : r.etf = e := by
  simp only [etfRows, List.mem_map] at hr
  obtain ⟨i, -, rfl⟩ := hr
  rfl

lemma etf_of_mem_rowsFor {r : Row} {investment : ℚ} {p : String × ℚ}
    (hr : r ∈ rowsFor investment p) : r.etf = p.1 :=
  etf_of_mem_etfRows hr

lemma filter_allRows_of_not_mem {w : List (String × ℚ)} {e : String}
    (investment : ℚ) (h : ∀ p ∈ w, p.1 ≠ e) :
    (allRows investment w).filter (fun r => r.etf == e) = [] := by
  rw [List.filter_eq_nil_iff]
  intro r hr
  simp only [allRows, List.mem_flatMap] at hr
  obtain ⟨p, hp, hrp⟩ := hr
  simp [etf_of_mem_rowsFor hrp, h p hp]


lemma allRows_cons (investment : ℚ) (p : String × ℚ)
    (rest : List (String × ℚ)) :
    allRows investment (p :: rest)
      = rowsFor investment p ++ allRows investment rest := rfl

lemma filter_allRows_eq {w : List (String × ℚ)} {e : String} {wt : ℚ}
    (investment : ℚ) (hnd : (w.map Prod.fst).Nodup) (hmem : (e, wt) ∈ w) :
    (allRows investment w).filter (fun r => r.etf == e)
      = rowsFor investment (e, wt) := by
  induction w with
  | nil => cases hmem
  | cons p rest ih =>
    obtain ⟨e', wt'⟩ := p
    simp only [List.map_cons, List.nodup_cons] at hnd
    rw [allRows_cons, List.filter_append]
    rcases List.mem_cons.mp hmem with heq | hrest
    · obtain ⟨h1e, h1w⟩ := Prod.mk.injEq e wt e' wt' ▸ heq
      subst h1e
      subst h1w
      have h1 : (rowsFor investment (e, wt)).filter (fun r => r.etf == e)
          = rowsFor investment (e, wt) :=
        List.filter_eq_self.mpr fun r hr => by
          simp [etf_of_mem_rowsFor hr]
      have h2 : ∀ q ∈ rest, q.1 ≠ e := by
        intro q hq hqe
        exact hnd.1 (hqe ▸ List.mem_map_of_mem Prod.fst hq)
      rw [h1, filter_allRows_of_not_mem investment h2, List.append_nil]
    · have hne : e' ≠ e := by
        rintro rfl
        exact hnd.1 (List.mem_map_of_mem Prod.fst hrest)
      have h1 : (rowsFor investment (e', wt')).filter (fun r => r.etf == e)
          = [] := by
        rw [List.filter_eq_nil_iff]
        intro r hr
        simp [etf_of_mem_rowsFor hr, hne]
      rw [h1, List.nil_append]
      exact ih hnd.2 hrest

lemma dateLE_trans :
    ∀ a b c : Date, dateLE a b → dateLE b c → dateLE a c := by
  intro a b c hab hbc
  simp only [dateLE, Bool.or_eq_true, Bool.and_eq_true, decide_eq_true_eq]
    at hab hbc ⊢
  omega

lemma dateLE_total : ∀ a b : Date, dateLE a b || dateLE b a := by
  intro a b
  simp only [dateLE, Bool.or_eq_true, Bool.and_eq_true, decide_eq_true_eq]
  omega

lemma sortRows_perm (rows : List Row) : List.Perm (sortRows rows) rows :=
  List.mergeSort_perm rows _

lemma sortRows_sorted (rows : List Row) :
    (sortRows rows).Pairwise (fun a b => dateLE a.payDate b.payDate = true) :=
  List.sorted_mergeSort
    (fun a b c => dateLE_trans a.payDate b.payDate c.payDate)
    (fun a b => dateLE_total a.payDate b.payDate) rows

lemma gds_known {w : List (String × ℚ)} (investment : ℚ)
    (hk : ∀ p ∈ w, p.1 ∈ knownEtfs) (hne : w ≠ []) :
    generate_distribution_schedule investment w
      = .ok (sortRows (allRows investment w)) := by
  simp only [generate_distribution_schedule, genRows_known investment hk,
    List.isEmpty_eq_false.mpr hne, Bool.false_eq_true, if_false]

lemma unknown_etf_yields_none {e : String} (he : e ∉ knownEtfs) :
    etf_yields e = none := by
  cases h : etf_yields e with
  | none => rfl
  | some r =>
    exfalso
    apply he
    have hsome : (etfYieldsTable.lookup e).isSome := by
      rw [show etfYieldsTable.lookup e = etf_yields e from rfl, h]
      rfl
    obtain ⟨p, hp, hpe⟩ := List.lookup_isSome_iff.mp hsome
    have : e = p.1 := by simpa using hpe
    subst this
    revert hp
    simp only [etfYieldsTable, knownEtfs, List.mem_cons, List.not_mem_nil,
      or_false]
    rintro (rfl | rfl | rfl | rfl | rfl | rfl | rfl | rfl) <;> simp

lemma genRows_error {w : List (String × ℚ)} (investment : ℚ)
    (h : ∃ p ∈ w, p.1 ∉ knownEtfs) :
    ∃ msg, genRows investment w = .error msg := by
  induction w with
  | nil =>
    obtain ⟨p, hp, -⟩ := h
    cases hp
  | cons q rest ih =>
    obtain ⟨e', wt'⟩ := q
    by_cases he : e' ∈ knownEtfs
    · have hrest : ∃ p ∈ rest, p.1 ∉ knownEtfs := by
        obtain ⟨p, hp, hbad⟩ := h
        rcases List.mem_cons.mp hp with rfl | hr
        · exact absurd he hbad
        · exact ⟨p, hr, hbad⟩
      obtain ⟨msg, hmsg⟩ := ih hrest
      obtain ⟨h1, h2, h3⟩ := known_eval he
      exact ⟨msg, by simp only [genRows, h1, h2, h3, hmsg]⟩
    · exact ⟨"KeyError: " ++ e',
        by simp only [genRows, unknown_etf_yields_none he]⟩

/-- The weighted sum of table yields, `Σ weight_i × yield_i`. -/
def weightedYieldSum (w : List (String × ℚ)) : ℚ :=
  (w.map (fun p => yieldOf p.1 * p.2)).sum

lemma yieldSum_known {w : List (String × ℚ)}
    (hk : ∀ p ∈ w, p.1 ∈ knownEtfs) :
    yieldSum w = .ok (weightedYieldSum w) := by
  induction w with
  | nil => rfl
  | cons p rest ih =>
    obtain ⟨e, wt⟩ := p
    obtain ⟨h1, -, -⟩ := known_eval (hk (e, wt) (List.mem_cons_self _ _))
    have ih' := ih (fun q hq => hk q (List.mem_cons_of_mem _ hq))
    simp only [yieldSum, h1, ih', weightedYieldSum, List.map_cons,
      List.sum_cons]

/-- The rows of a schedule that belong to one ETF. -/
def rowsOf (rows : List Row) (etf : String) : List Row :=
  rows.filter (fun r => r.etf == etf)

lemma day_of_mem_etfRows {r : Row} {investment weight rate : ℚ}
    {e f : String} {a : Date} (hr : r ∈ etfRows investment weight rate e f a) :
    r.payDate.day = daysInMonth r.payDate.year r.payDate.month := by
  simp only [etfRows, List.mem_map] at hr
  obtain ⟨i, -, rfl⟩ := hr
  rfl

lemma day_of_mem_rowsFor {r : Row} {investment : ℚ} {p : String × ℚ}
    (hr : r ∈ rowsFor investment p) :
    r.payDate.day = daysInMonth r.payDate.year r.payDate.month :=
  day_of_mem_etfRows hr

lemma pyRound2_zero : pyRound2 0 = 0 := by
  norm_num [pyRound2, roundHalfEven]

lemma dist_of_mem_etfRows_zero {r : Row} {investment rate : ℚ}
    {e f : String} {a : Date} (hr : r ∈ etfRows investment 0 rate e f a) :
    r.dist = 0 := by
  simp only [etfRows, List.mem_map] at hr
  obtain ⟨i, -, rfl⟩ := hr
  simp [mul_zero, zero_mul, zero_div, pyRound2_zero]

lemma rowsFor_length (investment : ℚ) (e : String) (wt : ℚ) :
    (rowsFor investment (e, wt)).length
      = if (schedOf e).frequency = "monthly" then 12 else 4 := by
  simp only [rowsFor, etfRows, List.length_map, List.length_range]

lemma rowsOf_perm_rowsFor {w : List (String × ℚ)} {e : String} {wt : ℚ}
    (investment : ℚ) (hnd : (w.map Prod.fst).Nodup) (hmem : (e, wt) ∈ w) :
    List.Perm (rowsOf (sortRows (allRows investment w)) e)
      (rowsFor investment (e, wt)) :=
  ((sortRows_perm (allRows investment w)).filter _).trans
    (List.Perm.of_eq (filter_allRows_eq investment hnd hmem))

/-- C3: `get_federal_tax_rate` returns the rate of the first bracket whose
limit is at least the income: `11600 ↦ 0.10`, `11601 ↦ 0.12`,
`1000000 ↦ 0.37`, and every negative income gets the lowest-bracket rate
`0.10`. -/
theorem C3_federal_brackets :
    get_federal_tax_rate 11600 = 0.10 ∧ get_federal_tax_rate 11601 = 0.12 ∧
      get_federal_tax_rate 1000000 = 0.37 ∧
      ∀ income : ℚ, income < 0 → get_federal_tax_rate income = 0.10 := by
  refine ⟨rfl, rfl, rfl, ?_⟩
  intro income hneg
  have h : income ≤ (11600 : ℚ) := by
    have : (0 : ℚ) ≤ 11600 := by norm_num
    linarith
  simp [get_federal_tax_rate, brackets, h]

/-- C3 witness: the negative-income clause of `C3_federal_brackets`
instantiated at `-5`. -/
theorem C3_witness : get_federal_tax_rate (-5) = 0.10 :=
  C3_federal_brackets.2.2.2 (-5) (by norm_num)

/-- C9: with an empty weight map, `simulate_income_planner` returns the empty
summary dict and `generate_distribution_schedule` returns an empty DataFrame,
for every investment, state, and income, and neither raises an error. -/
theorem C9_empty_weights :
    ∀ (investment income : ℚ) (state : String),
      simulate_income_planner investment [] state income = .ok [] ∧
        generate_distribution_schedule investment [] = .ok [] :=
  fun _ _ _ => ⟨rfl, rfl⟩

/-- C5: whenever the weight map contains a ticker that is absent from the
static reference tables, `generate_distribution_schedule` fails with an
explicit error (the raised `KeyError`), never a partial result. -/
theorem C5_unknown_etf (investment : ℚ) (w : List (String × ℚ))
    (h : ∃ p ∈ w, p.1 ∉ knownEtfs) :
    ∃ msg, generate_distribution_schedule investment w = .error msg := by
  have hne : w ≠ [] := by
    obtain ⟨p, hp, -⟩ := h
    exact List.ne_nil_of_mem hp
  obtain ⟨msg, hmsg⟩ := genRows_error investment h
  exact ⟨msg, by
    simp only [generate_distribution_schedule, hmsg,
      List.isEmpty_eq_false.mpr hne, Bool.false_eq_true, if_false]⟩

/-- C5 witness: `C5_unknown_etf` at the unknown ticker `"AAA"`. -/
theorem C5_witness :
    ∃ msg, generate_distribution_schedule 1 [("AAA", 1)] = .error msg :=
  C5_unknown_etf 1 [("AAA", 1)] ⟨("AAA", 1), by simp, by decide⟩

/-- C8: a jurisdiction missing from the state tax table does not make
`simulate_income_planner` fail; the default rate `0.05` is used, so the
result coincides with the result for Massachusetts (whose rate is `0.05`). -/
theorem C8_state_fallback (investment income : ℚ) (w : List (String × ℚ))
    (state : String) (hs : state_tax_rates state = none)
    (hk : ∀ p ∈ w, p.1 ∈ knownEtfs) :
    (∃ out, simulate_income_planner investment w state income = .ok out) ∧
      simulate_income_planner investment w state income
        = simulate_income_planner investment w "Massachusetts" income := by
  have hMass : state_tax_rates "Massachusetts" = some 0.05 := rfl
  constructor
  · by_cases hw : w = []
    · subst hw
      exact ⟨[], rfl⟩
    · simp only [simulate_income_planner, yieldSum_known hk,
        List.isEmpty_eq_false.mpr hw, Bool.false_eq_true, if_false]
      exact ⟨_, rfl⟩
  · simp only [simulate_income_planner, hs, hMass, Option.getD_none,
      Option.getD_some]

/-- C8 witness: `C8_state_fallback` at the unknown jurisdiction
`"Nowhere"`. -/
theorem C8_witness :
    (∃ out, simulate_income_planner 1 [("JEPI", 1)] "Nowhere" 1 = .ok out) ∧
      simulate_income_planner 1 [("JEPI", 1)] "Nowhere" 1
        = simulate_income_planner 1 [("JEPI", 1)] "Massachusetts" 1 :=
  C8_state_fallback 1 1 [("JEPI", 1)] "Nowhere" rfl (by decide)

/-- C4: for known-ETF weight maps the summary's gross yearly income is
`investment × Σ (weight_i × yield_i)` rounded to cents, and the net yearly
income applies the federal and state rates summed once as one flat combined
rate: `gross × (1 − (fed + state))`, rounded to cents. -/
theorem C4_gross_net (investment income : ℚ) (w : List (String × ℚ))
    (state : String) (hk : ∀ p ∈ w, p.1 ∈ knownEtfs) (hne : w ≠ []) :
    ∃ out, simulate_income_planner investment w state income = .ok out ∧
      out.lookup "Gross Yearly Income ($)"
        = some (.num (pyRound2 (investment * weightedYieldSum w))) ∧
      out.lookup "Net Yearly Income ($)"
        = some (.num (pyRound2 (investment * weightedYieldSum w *
            (1 - (get_federal_tax_rate income
                    + (state_tax_rates state).getD 0.05))))) := by
  simp only [simulate_income_planner, yieldSum_known hk,
    List.isEmpty_eq_false.mpr hne, Bool.false_eq_true, if_false]
  refine ⟨_, rfl, rfl, ?_⟩
  rw [show investment * weightedYieldSum w
        - investment * weightedYieldSum w *
            (get_federal_tax_rate income + (state_tax_rates state).getD 0.05)
      = investment * weightedYieldSum w *
          (1 - (get_federal_tax_rate income
                  + (state_tax_rates state).getD 0.05)) from by ring]
  rfl

/-- C4 witness: `C4_gross_net` at investment 100000, weights
`{JEPI: 0.5, SPYD: 0.5}`, Texas, income 50000. -/
theorem C4_witness :
    ∃ out, simulate_income_planner 100000 [("JEPI", 0.5), ("SPYD", 0.5)]
        "Texas" 50000 = .ok out ∧
      out.lookup "Gross Yearly Income ($)"
        = some (.num (pyRound2 (100000 *
            weightedYieldSum [("JEPI", 0.5), ("SPYD", 0.5)]))) ∧
      out.lookup "Net Yearly Income ($)"
        = some (.num (pyRound2 (100000 *
            weightedYieldSum [("JEPI", 0.5), ("SPYD", 0.5)] *
            (1 - (get_federal_tax_rate 50000
                    + (state_tax_rates "Texas").getD 0.05))))) :=
  C4_gross_net 100000 50000 [("JEPI", 0.5), ("SPYD", 0.5)] "Texas"
    (by decide) (by decide)

/-- C6 counterexample: for Illinois (rate `0.0495`) the summary renders the
state rate as `"4%"`, while rounding `4.95` to the nearest whole percent
gives `5`, so the rendering is not obtained by rounding to the nearest whole
percent. -/
theorem C6_counterexample :
    (∃ out, simulate_income_planner 100000 [("JEPI", 1)] "Illinois" 50000
        = .ok out ∧ out.lookup "State Tax Rate" = some (.str "4%")) ∧
      round ((0.0495 : ℚ) * 100) = 5 ∧ ("4%" : String) ≠ "5%" := by
  have hys : yieldSum [("JEPI", 1)] = .ok 0.0838 := by
    have h1 : etf_yields "JEPI" = some 0.0838 := rfl
    simp only [yieldSum, h1]
    norm_num
  have hst : state_tax_rates "Illinois" = some 0.0495 := rfl
  have h4 : pyInt ((0.0495 : ℚ) * 100) = 4 := by norm_num [pyInt]
  have h22 : pyInt ((0.22 : ℚ) * 100) = 22 := by norm_num [pyInt]
  have hfed : get_federal_tax_rate 50000 = 0.22 := rfl
  have hrec : simulate_income_planner 100000 [("JEPI", 1)] "Illinois" 50000
      = .ok [("Average Yield (%)", .num 8.38),
             ("Gross Monthly Income ($)", .num 698.33),
             ("Gross Yearly Income ($)", .num 8380),
             ("Federal Tax Rate", .str "22%"),
             ("State Tax Rate", .str "4%"),
             ("Net Monthly Income ($)", .num 510.13),
             ("Net Yearly Income ($)", .num 6121.59)] := by
    simp only [simulate_income_planner, hys, hfed, hst, List.isEmpty_cons,
      Option.getD_some]
    rw [h22, h4]
    norm_num [pyRound2, roundHalfEven]
    exact ⟨rfl, rfl⟩
  refine ⟨⟨_, hrec, rfl⟩, ?_, by decide⟩
  rw [round_eq]
  norm_num

/-- C6 (amended): the summary record of `simulate_income_planner` has every
monetary value rounded to 2 decimals and renders the federal and state tax
rates as whole-percent strings obtained by truncating `rate × 100` toward
zero (Python `int`), not by rounding to the nearest whole percent. -/
theorem C6_summary_shape (investment income : ℚ) (w : List (String × ℚ))
    (state : String) (hk : ∀ p ∈ w, p.1 ∈ knownEtfs) (hne : w ≠ []) :
    simulate_income_planner investment w state income = .ok
      [("Average Yield (%)", .num (pyRound2 (weightedYieldSum w * 100))),
       ("Gross Monthly Income ($)",
         .num (pyRound2 (investment * weightedYieldSum w / 12))),
       ("Gross Yearly Income ($)",
         .num (pyRound2 (investment * weightedYieldSum w))),
       ("Federal Tax Rate",
         .str (toString (pyInt (get_federal_tax_rate income * 100)) ++ "%")),
       ("State Tax Rate",
         .str (toString (pyInt ((state_tax_rates state).getD 0.05 * 100))
                ++ "%")),
       ("Net Monthly Income ($)",
         .num (pyRound2 ((investment * weightedYieldSum w
           - investment * weightedYieldSum w *
               (get_federal_tax_rate income
                 + (state_tax_rates state).getD 0.05)) / 12))),
       ("Net Yearly Income ($)",
         .num (pyRound2 (investment * weightedYieldSum w
           - investment * weightedYieldSum w *
               (get_federal_tax_rate income
                 + (state_tax_rates state).getD 0.05))))] := by
  simp only [simulate_income_planner, yieldSum_known hk,
    List.isEmpty_eq_false.mpr hne, Bool.false_eq_true, if_false]

/-- C6 witness: `C6_summary_shape` at investment 100000, weights
`{JEPI: 1}`, Illinois, income 50000. -/
theorem C6_witness :
    simulate_income_planner 100000 [("JEPI", 1)] "Illinois" 50000 = .ok
      [("Average Yield (%)",
         .num (pyRound2 (weightedYieldSum [("JEPI", 1)] * 100))),
       ("Gross Monthly Income ($)",
         .num (pyRound2 (100000 * weightedYieldSum [("JEPI", 1)] / 12))),
       ("Gross Yearly Income ($)",
         .num (pyRound2 (100000 * weightedYieldSum [("JEPI", 1)]))),
       ("Federal Tax Rate",
         .str (toString (pyInt (get_federal_tax_rate 50000 * 100)) ++ "%")),
       ("State Tax Rate",
         .str (toString (pyInt ((state_tax_rates "Illinois").getD 0.05 * 100))
                ++ "%")),
       ("Net Monthly Income ($)",
         .num (pyRound2 ((100000 * weightedYieldSum [("JEPI", 1)]
           - 100000 * weightedYieldSum [("JEPI", 1)] *
               (get_federal_tax_rate 50000
                 + (state_tax_rates "Illinois").getD 0.05)) / 12))),
       ("Net Yearly Income ($)",
         .num (pyRound2 (100000 * weightedYieldSum [("JEPI", 1)]
           - 100000 * weightedYieldSum [("JEPI", 1)] *
               (get_federal_tax_rate 50000
                 + (state_tax_rates "Illinois").getD 0.05))))] :=
  C6_summary_shape 100000 50000 [("JEPI", 1)] "Illinois" (by decide)
    (by decide)

/-- C1 counterexample: at income 50000 the code resolves the 22% bracket
(50000 is above the 47150 limit), so the claimed federal rate of 12% — and
the net figures derived from it — do not match the output: the summary shows
`"22%"`, net yearly `5023.20` and net monthly `418.60`. -/
theorem C1_counterexample :
    (∃ out, simulate_income_planner 100000 [("JEPI", 0.5), ("SPYD", 0.5)]
        "Texas" 50000 = .ok out ∧
      out.lookup "Federal Tax Rate" = some (.str "22%") ∧
      out.lookup "Net Yearly Income ($)" = some (.num 5023.20) ∧
      out.lookup "Net Monthly Income ($)" = some (.num 418.60)) ∧
      ("22%" : String) ≠ "12%" ∧ (5023.20 : ℚ) ≠ 5667.20 ∧
      (418.60 : ℚ) ≠ 472.27 := by
  have hys : yieldSum [("JEPI", 0.5), ("SPYD", 0.5)] = .ok 0.0644 := by
    have h1 : etf_yields "JEPI" = some 0.0838 := rfl
    have h2 : etf_yields "SPYD" = some 0.045 := rfl
    simp only [yieldSum, h1, h2]
    norm_num
  have hfed : get_federal_tax_rate 50000 = 0.22 := rfl
  have hst : state_tax_rates "Texas" = some 0.0 := rfl
  have h22 : pyInt ((0.22 : ℚ) * 100) = 22 := by norm_num [pyInt]
  have h0 : pyInt ((0.0 : ℚ) * 100) = 0 := by norm_num [pyInt]
  have hrec : simulate_income_planner 100000 [("JEPI", 0.5), ("SPYD", 0.5)]
      "Texas" 50000
      = .ok [("Average Yield (%)", .num 6.44),
             ("Gross Monthly Income ($)", .num 536.67),
             ("Gross Yearly Income ($)", .num 6440),
             ("Federal Tax Rate", .str "22%"),
             ("State Tax Rate", .str "0%"),
             ("Net Monthly Income ($)", .num 418.60),
             ("Net Yearly Income ($)", .num 5023.20)] := by
    simp only [simulate_income_planner, hys, hfed, hst, List.isEmpty_cons,
      Option.getD_some]
    rw [h22, h0]
    norm_num [pyRound2, roundHalfEven]
    exact ⟨rfl, rfl⟩
  exact ⟨⟨_, hrec, rfl, rfl, rfl⟩, by decide, by norm_num, by norm_num⟩

/-- C1 (amended): for investment 100000, weights `{JEPI: 0.5, SPYD: 0.5}`,
Texas, taxable income 50000 the simulator returns average yield 6.44%, gross
annual income 6440.00, federal rate 22% (the bracket holding 50000), state
rate 0%, net annual income `6440 × 0.78 = 5023.20`, and net monthly income
418.60. -/
theorem C1_end_to_end :
    simulate_income_planner 100000 [("JEPI", 0.5), ("SPYD", 0.5)] "Texas"
      50000
      = .ok [("Average Yield (%)", .num 6.44),
             ("Gross Monthly Income ($)", .num 536.67),
             ("Gross Yearly Income ($)", .num 6440),
             ("Federal Tax Rate", .str "22%"),
             ("State Tax Rate", .str "0%"),
             ("Net Monthly Income ($)", .num 418.60),
             ("Net Yearly Income ($)", .num 5023.20)] := by
  have hys : yieldSum [("JEPI", 0.5), ("SPYD", 0.5)] = .ok 0.0644 := by
    have h1 : etf_yields "JEPI" = some 0.0838 := rfl
    have h2 : etf_yields "SPYD" = some 0.045 := rfl
    simp only [yieldSum, h1, h2]
    norm_num
  have hfed : get_federal_tax_rate 50000 = 0.22 := rfl
  have hst : state_tax_rates "Texas" = some 0.0 := rfl
  have h22 : pyInt ((0.22 : ℚ) * 100) = 22 := by norm_num [pyInt]
  have h0 : pyInt ((0.0 : ℚ) * 100) = 0 := by norm_num [pyInt]
  simp only [simulate_income_planner, hys, hfed, hst, List.isEmpty_cons,
    Option.getD_some]
  rw [h22, h0]
  norm_num [pyRound2, roundHalfEven]
  exact ⟨rfl, rfl⟩

/-- C10: a weight-map entry with weight exactly 0 is not skipped: its ETF
still contributes all its schedule rows (12 if monthly, 4 if quarterly),
each with estimated distribution 0.00. -/
theorem C10_zero_weight (investment : ℚ) (w : List (String × ℚ)) (e : String)
    (hk : ∀ p ∈ w, p.1 ∈ knownEtfs) (hnd : (w.map Prod.fst).Nodup)
    (hmem : (e, (0 : ℚ)) ∈ w) (sched : Sched)
    (hs : etf_distribution_schedules e = some sched) :
    ∃ rows, generate_distribution_schedule investment w = .ok rows ∧
      (rowsOf rows e).length
        = (if sched.frequency = "monthly" then 12 else 4) ∧
      ∀ r ∈ rowsOf rows e, r.dist = 0 := by
  have hne := List.ne_nil_of_mem hmem
  have hp := rowsOf_perm_rowsFor investment hnd hmem
  have hsc : schedOf e = sched := by simp [schedOf, hs]
  refine ⟨_, gds_known investment hk hne, ?_, ?_⟩
  · rw [hp.length_eq, rowsFor_length, hsc]
  · intro r hr
    exact dist_of_mem_etfRows_zero (hp.mem_iff.mp hr)

/-- C10 witness: `C10_zero_weight` for a zero-weight JEPI entry. -/
theorem C10_witness :
    ∃ rows, generate_distribution_schedule 1 [("JEPI", 0)] = .ok rows ∧
      (rowsOf rows "JEPI").length
        = (if (Sched.mk "monthly" "2024-06-30").frequency = "monthly"
            then 12 else 4) ∧
      ∀ r ∈ rowsOf rows "JEPI", r.dist = 0 :=
  C10_zero_weight 1 [("JEPI", 0)] "JEPI" (by decide) (by decide)
    (List.mem_cons_self _ _) ⟨"monthly", "2024-06-30"⟩ rfl


lemma map_payDate_rowsFor (investment : ℚ) (e : String) (wt : ℚ) :
    (rowsFor investment (e, wt)).map (fun r => r.payDate)
      = (List.range (if (schedOf e).frequency = "monthly" then 12 else 4)).map
          (fun i =>
            let dt := addMonths (anchorOf e)
              ((if (schedOf e).frequency = "monthly" then 1 else 3) * i)
            ⟨dt.year, dt.month, daysInMonth dt.year dt.month⟩) := by
  simp only [rowsFor, etfRows, List.map_map]
  apply List.map_congr_left
  intro i hi
  rfl

lemma monthly_block (investment : ℚ) (t : String) (wt : ℚ)
    (hsch : schedOf t = ⟨"monthly", "2024-06-30"⟩)
    (hanc : anchorOf t = ⟨2024, 6, 30⟩) :
    (rowsFor investment (t, wt)).length = 12 ∧
      (rowsFor investment (t, wt)).map (fun r => monthIndex r.payDate)
        = (List.range 12).map
            (fun i => monthIndex ⟨2024, 6, 30⟩ + i) := by
  constructor
  · rw [rowsFor_length, hsch]
    decide
  · have hmm : (rowsFor investment (t, wt)).map
        (fun r => monthIndex r.payDate)
        = ((rowsFor investment (t, wt)).map (fun r : Row => r.payDate)).map
            monthIndex :=
      (List.map_map monthIndex (fun r : Row => r.payDate) _).symm
    rw [hmm, map_payDate_rowsFor, hsch, hanc]
    decide

lemma quarterly_block (investment : ℚ) (t : String) (wt : ℚ)
    (hsch : schedOf t = ⟨"quarterly", "2024-06-30"⟩)
    (hanc : anchorOf t = ⟨2024, 6, 30⟩) :
    (rowsFor investment (t, wt)).length = 4 ∧
      (rowsFor investment (t, wt)).map (fun r => monthIndex r.payDate)
        = (List.range 4).map
            (fun i => monthIndex ⟨2024, 6, 30⟩ + 3 * i) := by
  constructor
  · rw [rowsFor_length, hsch]
    decide
  · have hmm : (rowsFor investment (t, wt)).map
        (fun r => monthIndex r.payDate)
        = ((rowsFor investment (t, wt)).map (fun r : Row => r.payDate)).map
            monthIndex :=
      (List.map_map monthIndex (fun r : Row => r.payDate) _).symm
    rw [hmm, map_payDate_rowsFor, hsch, hanc]
    decide

/-- C2: for every positive investment and known-ETF weight map, each
monthly-frequency ETF contributes exactly 12 events whose pay dates cover 12
distinct consecutive calendar months starting at the anchor month, and each
quarterly-frequency ETF exactly 4 events spaced three months apart, every
event dated on the last calendar day of its target month (with the
28/29/30/31-day and leap-year rules of `daysInMonth`). -/
theorem C2_schedule_dates (investment : ℚ) (hinv : 0 < investment)
    (w : List (String × ℚ)) (hk : ∀ p ∈ w, p.1 ∈ knownEtfs)
    (hnd : (w.map Prod.fst).Nodup) (e : String) (wt : ℚ)
    (hmem : (e, wt) ∈ w) (sched : Sched)
    (hs : etf_distribution_schedules e = some sched) (d : Date)
    (hd : parseDate sched.next_pay_date = some d) :
    ∃ rows, generate_distribution_schedule investment w = .ok rows ∧
      (sched.frequency = "monthly" →
        (rowsOf rows e).length = 12 ∧
        List.Perm ((rowsOf rows e).map (fun r => monthIndex r.payDate))
          ((List.range 12).map (fun i => monthIndex d + i)) ∧
        ∀ r ∈ rowsOf rows e,
          r.payDate.day = daysInMonth r.payDate.year r.payDate.month) ∧
      (sched.frequency = "quarterly" →
        (rowsOf rows e).length = 4 ∧
        List.Perm ((rowsOf rows e).map (fun r => monthIndex r.payDate))
          ((List.range 4).map (fun i => monthIndex d + 3 * i)) ∧
        ∀ r ∈ rowsOf rows e,
          r.payDate.day = daysInMonth r.payDate.year r.payDate.month) := by
  have hne := List.ne_nil_of_mem hmem
  have hp := rowsOf_perm_rowsFor investment hnd hmem
  have he : e ∈ knownEtfs := hk (e, wt) hmem
  simp only [knownEtfs, List.mem_cons, List.not_mem_nil, or_false] at he
  rcases he with rfl | rfl | rfl | rfl | rfl | rfl | rfl | rfl
  · have hsc := Option.some.inj (hs.symm.trans
      (show etf_distribution_schedules "JEPI"
          = some ⟨"monthly", "2024-06-30"⟩ from rfl))
    subst hsc
    have hdd := Option.some.inj (hd.symm.trans
      (show parseDate "2024-06-30" = some ⟨2024, 6, 30⟩ from rfl))
    subst hdd
    obtain ⟨hl, hm⟩ := monthly_block investment "JEPI" wt rfl rfl
    exact ⟨_, gds_known investment hk hne,
      fun _ => ⟨hp.length_eq.trans hl,
        (hp.map _).trans (List.Perm.of_eq hm),
        fun r hr => day_of_mem_rowsFor (hp.mem_iff.mp hr)⟩,
      fun hq => absurd hq (by decide)⟩
  · have hsc := Option.some.inj (hs.symm.trans
      (show etf_distribution_schedules "SPYD"
          = some ⟨"quarterly", "2024-06-30"⟩ from rfl))
    subst hsc
    have hdd := Option.some.inj (hd.symm.trans
      (show parseDate "2024-06-30" = some ⟨2024, 6, 30⟩ from rfl))
    subst hdd
    obtain ⟨hl, hm⟩ := quarterly_block investment "SPYD" wt rfl rfl
    exact ⟨_, gds_known investment hk hne,
      fun hq => absurd hq (by decide),
      fun _ => ⟨hp.length_eq.trans hl,
        (hp.map _).trans (List.Perm.of_eq hm),
        fun r hr => day_of_mem_rowsFor (hp.mem_iff.mp hr)⟩⟩
  · have hsc := Option.some.inj (hs.symm.trans
      (show etf_distribution_schedules "SCHD"
          = some ⟨"quarterly", "2024-06-30"⟩ from rfl))
    subst hsc
    have hdd := Option.some.inj (hd.symm.trans
      (show parseDate "2024-06-30" = some ⟨2024, 6, 30⟩ from rfl))
    subst hdd
    obtain ⟨hl, hm⟩ := quarterly_block investment "SCHD" wt rfl rfl
    exact ⟨_, gds_known investment hk hne,
      fun hq => absurd hq (by decide),
      fun _ => ⟨hp.length_eq.trans hl,
        (hp.map _).trans (List.Perm.of_eq hm),
        fun r hr => day_of_mem_rowsFor (hp.mem_iff.mp hr)⟩⟩
  · have hsc := Option.some.inj (hs.symm.trans
      (show etf_distribution_schedules "VYM"
          = some ⟨"quarterly", "2024-06-30"⟩ from rfl))
    subst hsc
    have hdd := Option.some.inj (hd.symm.trans
      (show parseDate "2024-06-30" = some ⟨2024, 6, 30⟩ from rfl))
    subst hdd
    obtain ⟨hl, hm⟩ := quarterly_block investment "VYM" wt rfl rfl
    exact ⟨_, gds_known investment hk hne,
      fun hq => absurd hq (by decide),
      fun _ => ⟨hp.length_eq.trans hl,
        (hp.map _).trans (List.Perm.of_eq hm),
        fun r hr => day_of_mem_rowsFor (hp.mem_iff.mp hr)⟩⟩
  · have hsc := Option.some.inj (hs.symm.trans
      (show etf_distribution_schedules "QYLD"
          = some ⟨"monthly", "2024-06-30"⟩ from rfl))
    subst hsc
    have hdd := Option.some.inj (hd.symm.trans
      (show parseDate "2024-06-30" = some ⟨2024, 6, 30⟩ from rfl))
    subst hdd
    obtain ⟨hl, hm⟩ := monthly_block investment "QYLD" wt rfl rfl
    exact ⟨_, gds_known investment hk hne,
      fun _ => ⟨hp.length_eq.trans hl,
        (hp.map _).trans (List.Perm.of_eq hm),
        fun r hr => day_of_mem_rowsFor (hp.mem_iff.mp hr)⟩,
      fun hq => absurd hq (by decide)⟩
  · have hsc := Option.some.inj (hs.symm.trans
      (show etf_distribution_schedules "RYLD"
          = some ⟨"monthly", "2024-06-30"⟩ from rfl))
    subst hsc
    have hdd := Option.some.inj (hd.symm.trans
      (show parseDate "2024-06-30" = some ⟨2024, 6, 30⟩ from rfl))
    subst hdd
    obtain ⟨hl, hm⟩ := monthly_block investment "RYLD" wt rfl rfl
    exact ⟨_, gds_known investment hk hne,
      fun _ => ⟨hp.length_eq.trans hl,
        (hp.map _).trans (List.Perm.of_eq hm),
        fun r hr => day_of_mem_rowsFor (hp.mem_iff.mp hr)⟩,
      fun hq => absurd hq (by decide)⟩
  · have hsc := Option.some.inj (hs.symm.trans
      (show etf_distribution_schedules "BND"
          = some ⟨"monthly", "2024-06-30"⟩ from rfl))
    subst hsc
    have hdd := Option.some.inj (hd.symm.trans
      (show parseDate "2024-06-30" = some ⟨2024, 6, 30⟩ from rfl))
    subst hdd
    obtain ⟨hl, hm⟩ := monthly_block investment "BND" wt rfl rfl
    exact ⟨_, gds_known investment hk hne,
      fun _ => ⟨hp.length_eq.trans hl,
        (hp.map _).trans (List.Perm.of_eq hm),
        fun r hr => day_of_mem_rowsFor (hp.mem_iff.mp hr)⟩,
      fun hq => absurd hq (by decide)⟩
  · have hsc := Option.some.inj (hs.symm.trans
      (show etf_distribution_schedules "PFF"
          = some ⟨"monthly", "2024-06-30"⟩ from rfl))
    subst hsc
    have hdd := Option.some.inj (hd.symm.trans
      (show parseDate "2024-06-30" = some ⟨2024, 6, 30⟩ from rfl))
    subst hdd
    obtain ⟨hl, hm⟩ := monthly_block investment "PFF" wt rfl rfl
    exact ⟨_, gds_known investment hk hne,
      fun _ => ⟨hp.length_eq.trans hl,
        (hp.map _).trans (List.Perm.of_eq hm),
        fun r hr => day_of_mem_rowsFor (hp.mem_iff.mp hr)⟩,
      fun hq => absurd hq (by decide)⟩

/-- C2 witness: `C2_schedule_dates` at investment 1, weights `{JEPI: 1}`,
with JEPI's monthly schedule anchored at 2024-06-30. -/
theorem C2_witness :
    ∃ rows, generate_distribution_schedule 1 [("JEPI", 1)] = .ok rows ∧
      ((Sched.mk "monthly" "2024-06-30").frequency = "monthly" →
        (rowsOf rows "JEPI").length = 12 ∧
        List.Perm ((rowsOf rows "JEPI").map (fun r => monthIndex r.payDate))
          ((List.range 12).map
            (fun i => monthIndex ⟨2024, 6, 30⟩ + i)) ∧
        ∀ r ∈ rowsOf rows "JEPI",
          r.payDate.day = daysInMonth r.payDate.year r.payDate.month) ∧
      ((Sched.mk "monthly" "2024-06-30").frequency = "quarterly" →
        (rowsOf rows "JEPI").length = 4 ∧
        List.Perm ((rowsOf rows "JEPI").map (fun r => monthIndex r.payDate))
          ((List.range 4).map
            (fun i => monthIndex ⟨2024, 6, 30⟩ + 3 * i)) ∧
        ∀ r ∈ rowsOf rows "JEPI",
          r.payDate.day = daysInMonth r.payDate.year r.payDate.month) :=
  C2_schedule_dates 1 (by norm_num) [("JEPI", 1)] (by decide) (by decide)
    "JEPI" 1 (List.mem_cons_self _ _) ⟨"monthly", "2024-06-30"⟩ rfl
    ⟨2024, 6, 30⟩ rfl

lemma etfYieldsTable_keys : etfYieldsTable.map Prod.fst = knownEtfs := rfl

lemma etfSchedulesTable_keys :
    etfSchedulesTable.map Prod.fst = knownEtfs := rfl
